import Mathlib

/-!
# Verification of the `pyredfin` client library

Shallow embedding of `src/pyredfin.py` (class `Redfin`): an HTTP client
wrapper around Redfin's stingray API.  Python dictionaries become ordered
association lists with Python's insert-or-overwrite semantics, the HTTP
transport becomes an explicit function from (url, params) to a response,
`requests.raise_for_status` and `json.loads` are modelled with their
library semantics, and in-place mutation of a caller's dict becomes
explicit value passing (the mutated dict is returned alongside the
result).  Exceptions become `Except PyErr`.
-/

set_option maxRecDepth 4096

/-- The Python exceptions that the code under study can raise:
`requests.HTTPError` (from `raise_for_status`), `json.JSONDecodeError`
(from `json.loads`), and `KeyError` / `IndexError` / `TypeError` /
`AttributeError` from subscripting and attribute access. -/
inductive PyErr where
  | requestError
  | decodeError
  | keyError
  | indexError
  | typeError
  | attributeError
  deriving DecidableEq, Repr

/-- Scalar Python values used as query-parameter values and as the
`Union[str, int]` arguments of the source. -/
inductive PyVal where
  | int (i : Int)
  | str (s : String)
  | bool (b : Bool)
  deriving DecidableEq, Repr

/-- `str(v)`: how a scalar renders inside a Python f-string. -/
def pyStr : PyVal → String
  | .int i => toString i
  | .str s => s
  | .bool b => if b then "True" else "False"

/-- Python `v == ""`: only a string compares equal to the empty string;
an int or bool is never `==` to a str. -/
def pyEqStr (v : PyVal) (s : String) : Bool :=
  match v with
  | .str t => t = s
  | _ => false

/-- A JSON value as produced by `json.loads`.  Non-integral number
literals are kept as their source lexeme (`fnum`): their floating-point
semantics plays no role in any property studied here. -/
inductive Json where
  | null
  | bool (b : Bool)
  | num (n : Int)
  | fnum (lit : String)
  | str (s : String)
  | arr (elems : List Json)
  | obj (fields : List (String × Json))

/-- An HTTP response as seen through `requests`: the status code and the
body (`.text` and `.content` both expose the body; the str/bytes
distinction is elided). -/
structure Response where
  status : Nat
  text : String
  deriving DecidableEq, Repr

/-- Python dict assignment `d[k] = v` / insertion during a dict literal:
overwrite in place if the key is present (keeping its position),
otherwise append at the end. -/
def pyDictInsert {α : Type} : List (String × α) → String → α → List (String × α)
  | [], k, v => [(k, v)]
  | (k', v') :: rest, k, v =>
    if k' = k then (k', v) :: rest else (k', v') :: pyDictInsert rest k v

/-- Python dict lookup `d[k]` as an option (first, hence unique, match). -/
def pyLookup {α : Type} : List (String × α) → String → Option α
  | [], _ => none
  | (k', v) :: rest, k => if k' = k then some v else pyLookup rest k

/-- A Python dict literal `{init..., **splat}`: start from the explicit
entries and merge the splatted mapping entry by entry, later entries
overwriting earlier keys in place. -/
def pyDictLit {α : Type} (init : List (String × α)) (splat : List (String × α)) :
    List (String × α) :=
  splat.foldl (fun d kv => pyDictInsert d kv.1 kv.2) init

/-- Python string slicing `s[n:]`: drop the first `n` characters,
yielding `""` when the string is shorter than `n`. -/
def pySlice (s : String) (n : Nat) : String :=
  String.mk (s.data.drop n)

theorem pyDictInsert_lookup_self {α : Type} (d : List (String × α)) (k : String) (v : α) :
    pyLookup (pyDictInsert d k v) k = some v := by
  induction d with
  | nil => simp [pyDictInsert, pyLookup]
  | cons p rest ih =>
    by_cases h : p.1 = k <;> simp [pyDictInsert, pyLookup, h, ih]

theorem pyDictInsert_lookup_other {α : Type} (d : List (String × α)) (k k' : String) (v : α)
    (hne : k ≠ k') : pyLookup (pyDictInsert d k v) k' = pyLookup d k' := by
  induction d with
  | nil => simp [pyDictInsert, pyLookup, hne]
  | cons p rest ih =>
    by_cases h : p.1 = k
    · simp [pyDictInsert, pyLookup, h, hne]
    · simp only [pyDictInsert, pyLookup, if_neg h]
      by_cases h' : p.1 = k' <;> simp [h', ih]

/-! ## A model of `json.loads`

A recursive-descent parser for JSON documents, written against the
grammar that Python's `json.loads` accepts (strict mode): optional
whitespace, `null` / `true` / `false`, integer and fraction/exponent
number literals without leading zeros, double-quoted strings with the
standard escapes, arrays and objects.  Duplicate object keys overwrite
in insertion order, as Python dicts do.  (The `NaN`/`Infinity`
extension of the Python parser is not modelled; it plays no role in any
claim.)  Any lexical or syntactic failure is `DecodeError`
(`json.JSONDecodeError`); parsing never raises an indexing error.
Recursion over nested values is paid for with a fuel argument amply
larger than the input length. -/

/-- JSON insignificant whitespace. -/
def jsonWs (c : Char) : Bool :=
  c = ' ' ∨ c = '\t' ∨ c = '\n' ∨ c = '\r'

/-- Skip insignificant whitespace. -/
def skipWs : List Char → List Char
  | [] => []
  | c :: cs => if jsonWs c then skipWs cs else c :: cs

/-- Value of one hex digit. -/
def hexVal (c : Char) : Option Nat :=
  if '0' ≤ c ∧ c ≤ '9' then some (c.toNat - 48)
  else if 'a' ≤ c ∧ c ≤ 'f' then some (c.toNat - 87)
  else if 'A' ≤ c ∧ c ≤ 'F' then some (c.toNat - 55)
  else none

/-- Body of a JSON string, after the opening quote: returns the decoded
characters and the input after the closing quote. -/
def parseStringBody : List Char → Except PyErr (List Char × List Char)
  | [] => .error .decodeError
  | c :: cs =>
    if c = '"' then .ok ([], cs)
    else if c = '\\' then
      match cs with
      | [] => .error .decodeError
      | 'u' :: h1 :: h2 :: h3 :: h4 :: cs' =>
        match hexVal h1, hexVal h2, hexVal h3, hexVal h4 with
        | some a, some b, some c', some d => do
          let (tail, rest) ← parseStringBody cs'
          .ok (Char.ofNat (((a * 16 + b) * 16 + c') * 16 + d) :: tail, rest)
        | _, _, _, _ => .error .decodeError
      | e :: cs' =>
        let esc : Option Char :=
          if e = '"' then some '"'
          else if e = '\\' then some '\\'
          else if e = '/' then some '/'
          else if e = 'b' then some (Char.ofNat 8)
          else if e = 'f' then some (Char.ofNat 12)
          else if e = 'n' then some '\n'
          else if e = 'r' then some '\r'
          else if e = 't' then some '\t'
          else none
        match esc with
        | some d => do
          let (tail, rest) ← parseStringBody cs'
          .ok (d :: tail, rest)
        | none => .error .decodeError
    else if c.toNat < 32 then .error .decodeError
    else do
      let (tail, rest) ← parseStringBody cs
      .ok (c :: tail, rest)

/-- Numeric value of a digit string. -/
def natOfDigits (ds : List Char) : Nat :=
  ds.foldl (fun n c => n * 10 + (c.toNat - 48)) 0

/-- A JSON number literal: an integer literal yields `Json.num`; a
literal with a fraction or exponent part is kept as its lexeme
(`Json.fnum`). -/
def parseNumber (cs : List Char) : Except PyErr (Json × List Char) :=
  let neg : Bool := cs.head? == some '-'
  let cs1 : List Char := if neg then cs.tail else cs
  let ids : List Char := cs1.takeWhile Char.isDigit
  let cs2 : List Char := cs1.dropWhile Char.isDigit
  if ids.isEmpty then .error .decodeError
  else if ids.head? == some '0' && ids.length != 1 then .error .decodeError
  else
    let hasFrac : Bool := cs2.head? == some '.'
    let fds : List Char := if hasFrac then cs2.tail.takeWhile Char.isDigit else []
    let cs3 : List Char := if hasFrac then cs2.tail.dropWhile Char.isDigit else cs2
    if hasFrac && fds.isEmpty then .error .decodeError
    else
      let fracChars : List Char := if hasFrac then '.' :: fds else []
      let hasExp : Bool := cs3.head? == some 'e' || cs3.head? == some 'E'
      let eTail : List Char := cs3.tail
      let sgn : List Char :=
        if hasExp && (eTail.head? == some '+' || eTail.head? == some '-') then eTail.take 1
        else []
      let eds0 : List Char := if sgn.isEmpty then eTail else eTail.tail
      let eds : List Char := if hasExp then eds0.takeWhile Char.isDigit else []
      let cs4 : List Char := if hasExp then eds0.dropWhile Char.isDigit else cs3
      if hasExp && eds.isEmpty then .error .decodeError
      else
        let expChars : List Char := if hasExp then cs3.take 1 ++ sgn ++ eds else []
        if fracChars.isEmpty && expChars.isEmpty then
          let n : Int := natOfDigits ids
          .ok (.num (if neg then -n else n), cs2)
        else
          .ok (.fnum (String.mk ((if neg then ['-'] else []) ++ ids ++ fracChars ++ expChars)), cs4)

mutual

/-- One JSON value, by recursive descent. -/
def parseValue : Nat → List Char → Except PyErr (Json × List Char)
  | 0, _ => .error .decodeError
  | fuel + 1, cs =>
    match skipWs cs with
    | [] => .error .decodeError
    | c :: rest =>
      if c = '{' then
        match skipWs rest with
        | '}' :: rest' => .ok (.obj [], rest')
        | rest' => do
          let (fields, rest'') ← parseObjItems fuel rest'
          .ok (.obj (fields.foldl (fun d kv => pyDictInsert d kv.1 kv.2) []), rest'')
      else if c = '[' then
        match skipWs rest with
        | ']' :: rest' => .ok (.arr [], rest')
        | rest' => do
          let (elems, rest'') ← parseArrItems fuel rest'
          .ok (.arr elems, rest'')
      else if c = '"' then do
        let (body, rest') ← parseStringBody rest
        .ok (.str (String.mk body), rest')
      else if c = 't' then
        match rest with
        | 'r' :: 'u' :: 'e' :: rest' => .ok (.bool true, rest')
        | _ => .error .decodeError
      else if c = 'f' then
        match rest with
        | 'a' :: 'l' :: 's' :: 'e' :: rest' => .ok (.bool false, rest')
        | _ => .error .decodeError
      else if c = 'n' then
        match rest with
        | 'u' :: 'l' :: 'l' :: rest' => .ok (.null, rest')
        | _ => .error .decodeError
      else if c = '-' ∨ c.isDigit then
        parseNumber (c :: rest)
      else .error .decodeError

/-- The comma-separated items of a non-empty JSON array, up to and
including the closing bracket. -/
def parseArrItems : Nat → List Char → Except PyErr (List Json × List Char)
  | 0, _ => .error .decodeError
  | fuel + 1, cs => do
    let (v, rest) ← parseValue fuel cs
    match skipWs rest with
    | ',' :: rest' => do
      let (vs, rest'') ← parseArrItems fuel rest'
      .ok (v :: vs, rest'')
    | ']' :: rest' => .ok ([v], rest')
    | _ => .error .decodeError

/-- The comma-separated members of a non-empty JSON object, up to and
including the closing brace. -/
def parseObjItems : Nat → List Char → Except PyErr (List (String × Json) × List Char)
  | 0, _ => .error .decodeError
  | fuel + 1, cs =>
    match skipWs cs with
    | '"' :: rest => do
      let (key, rest1) ← parseStringBody rest
      match skipWs rest1 with
      | ':' :: rest2 => do
        let (v, rest3) ← parseValue fuel rest2
        match skipWs rest3 with
        | ',' :: rest4 => do
          let (kvs, rest5) ← parseObjItems fuel rest4
          .ok ((String.mk key, v) :: kvs, rest5)
        | '}' :: rest4 => .ok ([(String.mk key, v)], rest4)
        | _ => .error .decodeError
      | _ => .error .decodeError
    | _ => .error .decodeError

end

/-- `json.loads`: parse a complete JSON document, requiring the input to
be exhausted (apart from trailing whitespace). -/
def json_loads (s : String) : Except PyErr Json :=
  match parseValue (2 * s.data.length + 8) s.data with
  | .error e => .error e
  | .ok (j, rest) =>
    match skipWs rest with
    | [] => .ok j
    | _ => .error .decodeError

example : json_loads "7" = .ok (.num 7) := rfl
example : json_loads "" = .error .decodeError := rfl
example : json_loads " \x7b\"a\": [1, -2, null], \"b\": \"x\"\x7d " =
    .ok (.obj [("a", .arr [.num 1, .num (-2), .null]), ("b", .str "x")]) := rfl
example : json_loads "\x7b\"a\": 1, \"a\": 2\x7d" = .ok (.obj [("a", .num 2)]) := rfl
example : json_loads "01" = .error .decodeError := rfl
example : json_loads "1.5e3" = .ok (.fnum "1.5e3") := rfl
example : json_loads "[1" = .error .decodeError := rfl

/-! ## The client core

`Redfin.__init__` stores `self.base = "https://redfin.com/stingray/"` and
a headers mapping.  The HTTP transport (`requests.get`) is modelled as an
explicit function `Net` from the full URL and the query parameters to the
`Response` the server produces; the stored headers do not influence any
property studied below, so the functional model omits them (they are
modelled separately, with aliasing, for the constructor claims). -/

/-- The transport: what `requests.get(url, params=..., headers=...)`
returns for a given url and query-parameter mapping. -/
def Net : Type := String → List (String × PyVal) → Response

/-- `self.base`. -/
def redfinBase : String := "https://redfin.com/stingray/"

/-- `Redfin.redfin_request`: issue the GET and call
`response.raise_for_status()`, which raises `requests.HTTPError` exactly
for the client-error (4xx) and server-error (5xx) status ranges, and
otherwise return the raw response untouched. -/
def redfin_request (net : Net) (url : String) (params : List (String × PyVal)) :
    Except PyErr Response :=
  let response := net (redfinBase ++ url) params
  if 400 ≤ response.status ∧ response.status ≤ 599 then .error .requestError
  else .ok response

/-- `Redfin._format_response`: `json.loads(response.text[4:])`. -/
def format_response (response : Response) : Except PyErr Json :=
  json_loads (pySlice response.text 4)

/-- The query-parameter mapping `request_property_data` hands to
`redfin_request`: the literal `{"accessLevel": 1, **params}`, where
`params` has already received `params["pageType"] = 3` when `page` is
set. -/
def property_sent_params (params : List (String × PyVal)) (page : Bool) :
    List (String × PyVal) :=
  pyDictLit [("accessLevel", PyVal.int 1)]
    (if page then pyDictInsert params "pageType" (PyVal.int 3) else params)

/-- `Redfin.request_property_data`.  The first component of the result
is the caller's `params` dict after the call (the source mutates it in
place via `params["pageType"] = 3` when `page` is true); the second is
the returned value. -/
def request_property_data (net : Net) (url : String) (params : List (String × PyVal))
    (page : Bool) : List (String × PyVal) × Except PyErr Json :=
  let params' := if page then pyDictInsert params "pageType" (PyVal.int 3) else params
  (params',
    (redfin_request net ("api/home/details/" ++ url)
        (pyDictLit [("accessLevel", PyVal.int 1)] params')).bind format_response)

/-- The `request_url` computed by `Redfin.request_region_data` from its
f-strings: the `property_type` path segment is present exactly when
`property_type == ""` is false. -/
def region_request_url (url : String) (region_type region_id property_type : PyVal) :
    String :=
  if pyEqStr property_type "" then
    "api/region/" ++ pyStr region_type ++ "/" ++ pyStr region_id ++ "/" ++ url
  else
    "api/region/" ++ pyStr region_type ++ "/" ++ pyStr region_id ++ "/"
      ++ pyStr property_type ++ "/" ++ url

/-- `Redfin.request_region_data` (the request carries no query
parameters: `redfin_request` is called with its default `params={}`). -/
def request_region_data (net : Net) (url : String)
    (region_type region_id property_type : PyVal) : Except PyErr Json :=
  (redfin_request net (region_request_url url region_type region_id property_type)
      []).bind format_response

/-- What a public method of the class hands back to its caller: the raw
`requests.Response` object, a decoded JSON value, a reshaped
list/mapping, or the raw body bytes. -/
inductive MethodResult where
  | raw (r : Response)
  | json (j : Json)
  | jsonList (l : List Json)
  | tsDict (d : List (String × Json))
  | bytes (b : String)

/-- Python subscripting `j[k]` on a decoded JSON value with a string
key: `KeyError` when the key is absent, `TypeError` when the value is
not an object. -/
def jGet (j : Json) (k : String) : Except PyErr Json :=
  match j with
  | .obj fields =>
    match pyLookup fields k with
    | some v => .ok v
    | none => .error .keyError
  | _ => .error .typeError

/-- Python subscripting `j[i]` with an integer index: `IndexError` when
out of range, `TypeError` when the value is not an array. -/
def jIndex (j : Json) (i : Nat) : Except PyErr Json :=
  match j with
  | .arr xs =>
    match xs.get? i with
    | some v => .ok v
    | none => .error .indexError
  | _ => .error .typeError

/-- Iterating over a decoded JSON value (`for i in ...`): only arrays
are iterated in the code under study. -/
def jElems (j : Json) : Except PyErr (List Json) :=
  match j with
  | .arr xs => .ok xs
  | _ => .error .typeError

/-- Calling a `str` method (such as `.rsplit`) on a decoded JSON value:
`AttributeError` unless it is a string. -/
def jAsStr (j : Json) : Except PyErr String :=
  match j with
  | .str s => .ok s
  | _ => .error .attributeError

/-! ## Domain methods -/

/-- `Redfin.search`. -/
def search (net : Net) (query : String) (kwargs : List (String × PyVal)) :
    Except PyErr MethodResult :=
  ((redfin_request net "do/location-autocomplete"
      (pyDictLit [("location", PyVal.str query), ("v", PyVal.int 2)] kwargs)).bind
    format_response).map .json

/-- `Redfin.primary_region`: returns the raw response, undecoded. -/
def primary_region (net : Net) (url : String) : Except PyErr MethodResult :=
  (redfin_request net "api/home/details/primaryRegionInfo" [("path", PyVal.str url)]).map .raw

/-- `Redfin.shared_region`: returns the raw response, undecoded. -/
def shared_region (net : Net) (table_id : PyVal) (kwargs : List (String × PyVal)) :
    Except PyErr MethodResult :=
  (redfin_request net "api/region/shared-region-info"
      (pyDictLit [("tableId", table_id), ("regionTypeId", PyVal.int 2),
        ("mapPageTypeId", PyVal.int 1)] kwargs)).map .raw

/-- `Redfin.get_recently_sold`: returns the raw response, undecoded
(despite its `-> dict` annotation). -/
def get_recently_sold (net : Net) (region_type region_id : PyVal) :
    Except PyErr MethodResult :=
  (redfin_request net "api/gis/recently-sold"
      [("region_type", region_type), ("region_id", region_id)]).map .raw

/-- The `params` dict built by `Redfin.get_search_results_table`, in its
source order (note the one camel-cased key, `isRentals`). -/
def gis_csv_params (region_id region_type : PyVal)
    (al : Int) (has_deal has_dishwasher has_laundry_facility has_laundry_hookups
      has_parking has_pool has_short_term_lease include_pending_homes is_rentals
      is_furnished : Bool) (market : String) (num_homes : Int) (ord : String)
    (page_number : Int) (sold_within_days : Int) (status : Int)
    (travel_with_traffic travel_within_region : Bool) (uipt : String)
    (utilities_included : Bool) (v : Int) : List (String × PyVal) :=
  [("al", .int al), ("has_deal", .bool has_deal), ("has_dishwasher", .bool has_dishwasher),
   ("has_laundry_facility", .bool has_laundry_facility),
   ("has_laundry_hookups", .bool has_laundry_hookups), ("has_parking", .bool has_parking),
   ("has_pool", .bool has_pool), ("has_short_term_lease", .bool has_short_term_lease),
   ("include_pending_homes", .bool include_pending_homes), ("isRentals", .bool is_rentals),
   ("is_furnished", .bool is_furnished), ("market", .str market),
   ("num_homes", .int num_homes), ("ord", .str ord), ("page_number", .int page_number),
   ("region_id", region_id), ("region_type", region_type),
   ("sold_within_days", .int sold_within_days), ("status", .int status),
   ("travel_with_traffic", .bool travel_with_traffic),
   ("travel_within_region", .bool travel_within_region), ("uipt", .str uipt),
   ("utilities_included", .bool utilities_included), ("v", .int v)]

/-- `Redfin.get_search_results_table`: the one CSV endpoint; returns
`response.content`, the raw body bytes, with no decoding. -/
def get_search_results_table (net : Net) (region_id region_type : PyVal)
    (al : Int) (has_deal has_dishwasher has_laundry_facility has_laundry_hookups
      has_parking has_pool has_short_term_lease include_pending_homes is_rentals
      is_furnished : Bool) (market : String) (num_homes : Int) (ord : String)
    (page_number : Int) (sold_within_days : Int) (status : Int)
    (travel_with_traffic travel_within_region : Bool) (uipt : String)
    (utilities_included : Bool) (v : Int) : Except PyErr MethodResult :=
  let params := gis_csv_params region_id region_type al has_deal has_dishwasher
    has_laundry_facility has_laundry_hookups has_parking has_pool has_short_term_lease
    include_pending_homes is_rentals is_furnished market num_homes ord page_number
    sold_within_days status travel_with_traffic travel_within_region uipt
    utilities_included v
  (redfin_request net "api/gis-csv" params).map (fun r => .bytes r.text)

/-- `Redfin.get_property_information`. -/
def get_property_information (net : Net) (property_id listing_id : PyVal) :
    Except PyErr MethodResult :=
  ((request_property_data net "belowTheFold"
      [("propertyId", property_id), ("listingId", listing_id)] false).2).map .json

/-- `Redfin.get_similar_homes`. -/
def get_similar_homes (net : Net) (property_id listing_id : PyVal) :
    Except PyErr MethodResult :=
  ((request_property_data net "avm"
      [("propertyId", property_id), ("listingId", listing_id)] false).2).map .json

/-- The photo-URL extraction loop of `Redfin.get_property_images`:
`[i["photoUrls"]["nonFullScreenPhotoUrlCompressed"] for i in photos]`. -/
def extract_image_list (payload : Json) : Except PyErr (List Json) := do
  let p ← jGet payload "payload"
  let mbi ← jGet p "mediaBrowserInfo"
  let photos ← jGet mbi "photos"
  let elems ← jElems photos
  elems.mapM (fun i => do
    let urls ← jGet i "photoUrls"
    jGet urls "nonFullScreenPhotoUrlCompressed")

/-- `Redfin.get_property_images`. -/
def get_property_images (net : Net) (property_id listing_id : PyVal) :
    Except PyErr MethodResult :=
  (((request_property_data net "aboveTheFold"
      [("propertyId", property_id), ("listingId", listing_id)] false).2).bind
    extract_image_list).map .jsonList

/-- `Redfin.get_offer_insights`. -/
def get_offer_insights (net : Net) (region_type region_id property_type : PyVal) :
    Except PyErr MethodResult :=
  (request_region_data net "offer-insights" region_type region_id property_type).map .json

/-- `Redfin.get_best_schools`. -/
def get_best_schools (net : Net) (region_type region_id property_type : PyVal) :
    Except PyErr MethodResult :=
  (request_region_data net "best-schools" region_type region_id property_type).map .json

/-- `Redfin.get_walk_score_data`. -/
def get_walk_score_data (net : Net) (region_type region_id property_type : PyVal) :
    Except PyErr MethodResult :=
  (request_region_data net "walk-score-data" region_type region_id property_type).map .json

/-- `Redfin.get_region_trends`. -/
def get_region_trends (net : Net) (region_type region_id property_type : PyVal) :
    Except PyErr MethodResult :=
  (request_region_data net "trends" region_type region_id property_type).map .json

/-- `Redfin.get_flood_risk_data` (no `property_type` parameter: the
helper's default `""` applies). -/
def get_flood_risk_data (net : Net) (region_type region_id : PyVal) :
    Except PyErr MethodResult :=
  (request_region_data net "floodRisk-data" region_type region_id (PyVal.str "")).map .json

/-- `Redfin.get_market_insights_interlinks`. -/
def get_market_insights_interlinks (net : Net) (region_type region_id : PyVal) :
    Except PyErr MethodResult :=
  (request_region_data net "market-insights-interlinks" region_type region_id
    (PyVal.str "")).map .json

/-- `Redfin.get_env_risk_data`. -/
def get_env_risk_data (net : Net) (region_type region_id : PyVal) :
    Except PyErr MethodResult :=
  (request_region_data net "envRisk-data" region_type region_id (PyVal.str "")).map .json

/-- `Redfin.get_home_feature_trends`. -/
def get_home_feature_trends (net : Net) (region_type region_id : PyVal) :
    Except PyErr MethodResult :=
  (request_region_data net "home-feature-trends/entrypoint" region_type region_id
    (PyVal.str "")).map .json

/-- `Redfin.get_compete_score`. -/
def get_compete_score (net : Net) (region_type region_id : PyVal) :
    Except PyErr MethodResult :=
  (request_region_data net "compete-score" region_type region_id (PyVal.str "")).map .json

/-- `Redfin.get_nearby_compete_scores`. -/
def get_nearby_compete_scores (net : Net) (region_type region_id : PyVal) :
    Except PyErr MethodResult :=
  (request_region_data net "nearby-compete-scores" region_type region_id
    (PyVal.str "")).map .json

/-! ## Region-id extraction -/

/-- Python `str.split(sep)` for a one-character separator: splitting on
every occurrence; `"".split(sep) = [""]`.  `str.rsplit(sep)` with no
`maxsplit`, as used in the source, returns exactly the same list. -/
def splitChar (sep : Char) : List Char → List (List Char)
  | [] => [[]]
  | c :: cs =>
    let r := splitChar sep cs
    if c = sep then [] :: r
    else
      match r with
      | [] => [[c]]
      | g :: gs => (c :: g) :: gs

/-- `s.rsplit("_")` from `get_region_id`. -/
def pyRsplitUnderscore (s : String) : List String :=
  (splitChar '_' s.data).map String.mk

/-- `Redfin.get_region_id`:
`search_response["payload"]["sections"][0]["rows"][0]["id"].rsplit("_")[1]`. -/
def get_region_id (search_response : Json) : Except PyErr String := do
  let payload ← jGet search_response "payload"
  let sections ← jGet payload "sections"
  let sec0 ← jIndex sections 0
  let rows ← jGet sec0 "rows"
  let row0 ← jIndex rows 0
  let idv ← jGet row0 "id"
  let ids ← jAsStr idv
  match (pyRsplitUnderscore ids).get? 1 with
  | some region_id => .ok region_id
  | none => .error .indexError

/-! ## Month labels and the time-series dict comprehension

`strftime("%b %y")` is modelled on the absolute month index
`year * 12 + (month - 1)`: the C-locale month abbreviation, a space, and
the zero-padded two-digit year (`%y` is the year modulo 100).
`dateutil.relativedelta(months=k)` subtraction is exact calendar month
arithmetic, i.e. subtraction on the month index (the day-of-month clamp
cannot affect a month-resolution format). -/

/-- A decimal digit character. -/
def digitCh (d : Nat) : Char := Char.ofNat (48 + d)

/-- A zero-padded two-digit decimal rendering (`%y`). -/
def twoDigit (n : Nat) : List Char := [digitCh (n / 10), digitCh (n % 10)]

/-- The C-locale `%b` month abbreviations, by month number 0–11. -/
def monthAbbrevChars : Nat → List Char
  | 0 => ['J', 'a', 'n']
  | 1 => ['F', 'e', 'b']
  | 2 => ['M', 'a', 'r']
  | 3 => ['A', 'p', 'r']
  | 4 => ['M', 'a', 'y']
  | 5 => ['J', 'u', 'n']
  | 6 => ['J', 'u', 'l']
  | 7 => ['A', 'u', 'g']
  | 8 => ['S', 'e', 'p']
  | 9 => ['O', 'c', 't']
  | 10 => ['N', 'o', 'v']
  | _ => ['D', 'e', 'c']

/-- `strftime("%b %y")` of the month whose absolute month index
(`year * 12 + month - 1`) is `m`. -/
def fmtMonthData (m : Int) : List Char :=
  monthAbbrevChars (m % 12).toNat ++ ' ' :: twoDigit ((m / 12 % 100).toNat)

/-- `fmtMonthData`, as the string the comprehension uses for its keys. -/
def fmtMonth (m : Int) : String := String.mk (fmtMonthData m)

/-- Python `list(range(a, b))`. -/
def pyRangeInt (a b : Int) : List Int :=
  (List.range (b - a).toNat).map (fun k => a + (k : Int))

/-- `month_range = list(range(-1, 12 * 5))`. -/
def month_range : List Int := pyRangeInt (-1) (12 * 5)

/-- The `month_list` comprehension of `get_property_timeseries_estimate`:
`[(today - relativedelta(months=i-1)).strftime("%b %y") for i in month_range][::-1]`,
parameterised by the absolute month index of `datetime.today()`. -/
def month_list (today : Int) : List String :=
  (month_range.map (fun i => fmtMonth (today - (i - 1)))).reverse

/-- The dict comprehension
`{month_list[i]: estimate_list[i] for i in range(len(estimate_list))}`,
with Python list indexing (`IndexError` out of range) made explicit;
iteration order is the order of `range`. -/
def buildTsAux (labels : List String) (ests : List Json) :
    List Nat → List (String × Json) → Except PyErr (List (String × Json))
  | [], d => .ok d
  | i :: is, d =>
    match labels.get? i with
    | none => .error .indexError
    | some k =>
      match ests.get? i with
      | none => .error .indexError
      | some v => buildTsAux labels ests is (pyDictInsert d k v)

/-- The whole comprehension, started on `range(len(estimate_list))` with
an empty dict. -/
def buildTs (labels : List String) (ests : List Json) :
    Except PyErr (List (String × Json)) :=
  buildTsAux labels ests (List.range ests.length) []

/-- `Redfin.get_property_timeseries_estimate`, with the absolute month
index of `datetime.today()` made a parameter. -/
def get_property_timeseries_estimate (net : Net) (today : Int)
    (property_id listing_id : PyVal) : Except PyErr MethodResult := do
  let response ← (request_property_data net "avmHistoricalData"
      [("propertyId", property_id), ("listingId", listing_id)] false).2
  let payload ← jGet response "payload"
  let tsJson ← jGet payload "propertyTimeSeries"
  let estimate_list ← jElems tsJson
  let ts ← buildTs (month_list today) estimate_list
  .ok (.tsDict ts)

/-! ## The constructor and the shared default-argument headers dict

Python evaluates a `def`'s default argument once, at function definition
time; `Redfin.__init__(self, headers: dict = {"user-agent": ""})` hence
owns a single dict object shared by every call that omits `headers`.
To state aliasing, header dicts live in an explicit store and a client
holds a reference into it. -/

/-- The store of header dict objects. -/
structure HeaderHeap where
  store : List (List (String × String))

/-- The reference of `__init__`'s default-argument object. -/
def defaultHeadersRef : Nat := 0

/-- The store right after the module is loaded: it holds the one
default-argument dict `{"user-agent": ""}`. -/
def initialHeap : HeaderHeap := ⟨[[("user-agent", "")]]⟩

/-- A constructed client: `self.base` and a reference to the stored
`self.headers` dict. -/
structure ClientObj where
  base : String
  headers : Nat

/-- Read a header dict out of the store. -/
def heapGet (h : HeaderHeap) (r : Nat) : List (String × String) :=
  h.store.getD r []

/-- `client.headers[k] = v`: in-place mutation of the referenced dict
object. -/
def heapSetKey (h : HeaderHeap) (r : Nat) (k v : String) : HeaderHeap :=
  ⟨h.store.set r (pyDictInsert (heapGet h r) k v)⟩

/-- `Redfin()` with the `headers` argument omitted: `self.headers` is
(a reference to) the shared default-argument object, and nothing is
allocated. -/
def redfinInitDefault (h : HeaderHeap) : ClientObj × HeaderHeap :=
  (⟨redfinBase, defaultHeadersRef⟩, h)

/-- `Redfin(headers=d)` with an explicit dict object `d`: `self.headers`
is the caller's object. -/
def redfinInitWith (h : HeaderHeap) (r : Nat) : ClientObj × HeaderHeap :=
  (⟨redfinBase, r⟩, h)

/-! ## Dictionary lemmas -/

theorem pyDictInsert_mem_keys {α : Type} (d : List (String × α)) (k x : String) (v : α) :
    x ∈ (pyDictInsert d k v).map Prod.fst ↔ x ∈ d.map Prod.fst ∨ x = k := by
  induction d with
  | nil => simp [pyDictInsert]
  | cons p rest ih =>
    by_cases h : p.1 = k
    · simp only [pyDictInsert, if_pos h, List.map_cons, List.mem_cons]
      subst h
      tauto
    · simp only [pyDictInsert, if_neg h, List.map_cons, List.mem_cons, ih]
      tauto

theorem pyDictInsert_keys_nodup {α : Type} (d : List (String × α)) (k : String) (v : α)
    (h : (d.map Prod.fst).Nodup) : ((pyDictInsert d k v).map Prod.fst).Nodup := by
  induction d with
  | nil => simp [pyDictInsert]
  | cons p rest ih =>
    simp only [List.map_cons, List.nodup_cons] at h
    by_cases hk : p.1 = k
    · simp only [pyDictInsert, if_pos hk, List.map_cons, List.nodup_cons]
      exact ⟨h.1, h.2⟩
    · simp only [pyDictInsert, if_neg hk, List.map_cons, List.nodup_cons]
      refine ⟨fun hm => ?_, ih h.2⟩
      rcases (pyDictInsert_mem_keys rest k p.1 v).mp hm with hm' | hm'
      · exact h.1 hm'
      · exact hk hm'

theorem pyDictLit_lookup_not_mem {α : Type} (l : List (String × α)) (k : String)
    (h : ∀ p ∈ l, p.1 ≠ k) :
    ∀ init : List (String × α), pyLookup (pyDictLit init l) k = pyLookup init k := by
  induction l with
  | nil => intro init; rfl
  | cons p rest ih =>
    intro init
    have hstep : pyDictLit init (p :: rest) = pyDictLit (pyDictInsert init p.1 p.2) rest := rfl
    rw [hstep, ih (fun q hq => h q (List.mem_cons_of_mem p hq))]
    exact pyDictInsert_lookup_other init p.1 k p.2 (h p (List.mem_cons_self p rest))

theorem pyDictLit_lookup {α : Type} (l : List (String × α)) (k : String)
    (hnd : (l.map Prod.fst).Nodup) :
    ∀ init : List (String × α),
      pyLookup (pyDictLit init l) k = (pyLookup l k).or (pyLookup init k) := by
  induction l with
  | nil => intro init; rfl
  | cons p rest ih =>
    intro init
    simp only [List.map_cons, List.nodup_cons] at hnd
    have hstep : pyDictLit init (p :: rest) = pyDictLit (pyDictInsert init p.1 p.2) rest := rfl
    by_cases hk : p.1 = k
    · subst hk
      have hnr : ∀ q ∈ rest, q.1 ≠ p.1 := by
        intro q hq he
        exact hnd.1 (he ▸ List.mem_map_of_mem Prod.fst hq)
      rw [hstep, pyDictLit_lookup_not_mem rest p.1 hnr,
        pyDictInsert_lookup_self init p.1 p.2]
      simp [pyLookup]
    · rw [hstep, ih hnd.2 (pyDictInsert init p.1 p.2),
        pyDictInsert_lookup_other init p.1 k p.2 hk]
      simp [pyLookup, hk]

theorem pyDictInsert_eq_self {α : Type} (d : List (String × α)) (k : String) (v : α)
    (h : pyDictInsert d k v = d) : pyLookup d k = some v := by
  induction d with
  | nil => exact absurd h (by simp [pyDictInsert])
  | cons p rest ih =>
    by_cases hk : p.1 = k
    · simp only [pyDictInsert, if_pos hk, List.cons.injEq] at h
      have hv : v = p.2 := congrArg Prod.snd h.1
      simp [pyLookup, hk, hv]
    · simp only [pyDictInsert, if_neg hk, List.cons.injEq] at h
      simp [pyLookup, hk, ih h.2]

/-! ## Claim C1: parameters sent by the property-detail helper -/

/-- C1 counterexample: the merge `{"accessLevel": 1, **params}` lets a
caller-supplied `accessLevel` override the injected constant — with
`params = {"accessLevel": 2}` the mapping actually sent carries
`accessLevel = 2`, not `1`. -/
theorem c1_counterexample :
    property_sent_params [("accessLevel", PyVal.int 2)] false =
      [("accessLevel", PyVal.int 2)] ∧
    pyLookup (property_sent_params [("accessLevel", PyVal.int 2)] false) "accessLevel" =
      some (PyVal.int 2) := ⟨rfl, rfl⟩

/-- C1 (amended): the parameters `request_property_data` sends always
contain an `accessLevel` key; its value is the injected `1` exactly when
the caller's `params` carry no `accessLevel` entry, and otherwise the
caller's own value (the splat is merged after the default, so overrides
win).  When `page` is true the sent `pageType` is `3` regardless of the
caller's `params`. -/
theorem c1_amended (params : List (String × PyVal)) (page : Bool)
    (h : (params.map Prod.fst).Nodup) :
    pyLookup (property_sent_params params page) "accessLevel" =
      some ((pyLookup params "accessLevel").getD (PyVal.int 1)) ∧
    (page = true →
      pyLookup (property_sent_params params page) "pageType" = some (PyVal.int 3)) := by
  have hal : "pageType" ≠ "accessLevel" := by decide
  cases page with
  | false =>
    refine ⟨?_, by intro hc; exact absurd hc (by decide)⟩
    rw [show property_sent_params params false =
        pyDictLit [("accessLevel", PyVal.int 1)] params from rfl,
      pyDictLit_lookup params "accessLevel" h]
    cases pyLookup params "accessLevel" <;> rfl
  | true =>
    have h' : (((pyDictInsert params "pageType" (PyVal.int 3)).map Prod.fst)).Nodup :=
      pyDictInsert_keys_nodup params "pageType" (PyVal.int 3) h
    have hstep : property_sent_params params true =
        pyDictLit [("accessLevel", PyVal.int 1)]
          (pyDictInsert params "pageType" (PyVal.int 3)) := rfl
    constructor
    · rw [hstep, pyDictLit_lookup _ "accessLevel" h',
        pyDictInsert_lookup_other params "pageType" "accessLevel" (PyVal.int 3) hal]
      cases pyLookup params "accessLevel" <;> rfl
    · intro _
      rw [hstep, pyDictLit_lookup _ "pageType" h',
        pyDictInsert_lookup_self params "pageType" (PyVal.int 3)]
      rfl

/-- C1 witness: with `params = {"propertyId": 9}` and `page = true`, the
sent mapping carries `accessLevel = 1` and `pageType = 3`. -/
theorem c1_amended_witness :
    pyLookup (property_sent_params [("propertyId", PyVal.int 9)] true) "accessLevel" =
      some (PyVal.int 1) ∧
    pyLookup (property_sent_params [("propertyId", PyVal.int 9)] true) "pageType" =
      some (PyVal.int 3) :=
  ⟨(c1_amended [("propertyId", PyVal.int 9)] true (by decide)).1,
   (c1_amended [("propertyId", PyVal.int 9)] true (by decide)).2 rfl⟩

/-! ## Claim C9: in-place mutation of the caller's params dict -/

/-- A concrete transport for the C9 scenario. -/
def c9net : Net := fun _ _ => ⟨200, "abcd7"⟩

/-- C9 counterexample: with `page = true` and a caller mapping that is
already `{"pageType": 3}`, the caller's mapping after the call is
unchanged — it does not differ from the one passed in. -/
theorem c9_counterexample :
    (request_property_data c9net "u" [("pageType", PyVal.int 3)] true).1 =
      [("pageType", PyVal.int 3)] := rfl

/-- C9 (amended): with `page = true` the caller's dict is mutated in
place to map `pageType` to `3` (so it differs from its original value
exactly when it did not already map `pageType` to `3`); with
`page = false` it is left unchanged. -/
theorem c9_amended (net : Net) (url : String) (params : List (String × PyVal)) :
    (request_property_data net url params true).1 =
      pyDictInsert params "pageType" (PyVal.int 3) ∧
    (request_property_data net url params false).1 = params ∧
    (pyLookup params "pageType" ≠ some (PyVal.int 3) →
      (request_property_data net url params true).1 ≠ params) := by
  refine ⟨rfl, rfl, fun hne heq => hne ?_⟩
  exact pyDictInsert_eq_self params "pageType" (PyVal.int 3) heq

/-- C9 witness: with `params = {"propertyId": 9}` and `page = true`, the
caller's mapping after the call differs from the one passed in. -/
theorem c9_amended_witness :
    (request_property_data c9net "u" [("propertyId", PyVal.int 9)] true).1 ≠
      [("propertyId", PyVal.int 9)] :=
  (c9_amended c9net "u" [("propertyId", PyVal.int 9)]).2.2 (by decide)

/-! ## Claim C5: the shared default-argument headers dict -/

/-- The first client of the C5 scenario: `Redfin()`. -/
def c5_clientA : ClientObj := (redfinInitDefault initialHeap).1

/-- The store after constructing the first client. -/
def c5_heap1 : HeaderHeap := (redfinInitDefault initialHeap).2

/-- The second client of the C5 scenario: another `Redfin()`. -/
def c5_clientB : ClientObj := (redfinInitDefault c5_heap1).1

/-- The store after constructing both clients. -/
def c5_heap2 : HeaderHeap := (redfinInitDefault c5_heap1).2

/-- The store after `clientA.headers["user-agent"] = "Mozilla/5.0"`. -/
def c5_heap3 : HeaderHeap :=
  heapSetKey c5_heap2 c5_clientA.headers "user-agent" "Mozilla/5.0"

/-- C5: both default-constructed clients hold the one shared
default-argument dict (the classic Python mutable-default pitfall), so
the mutation of client A's headers becomes visible in client B's
headers — the claimed independence fails on the code. -/
theorem c5_shared_default_headers :
    c5_clientA.headers = c5_clientB.headers ∧
    heapGet c5_heap2 c5_clientB.headers = [("user-agent", "")] ∧
    heapGet c5_heap3 c5_clientB.headers = [("user-agent", "Mozilla/5.0")] :=
  ⟨rfl, rfl, rfl⟩

/-! ## Claim C6: response decoding -/

/-- C6: `_format_response` returns exactly `json.loads(body[4:])`, and a
body shorter than 4 characters (whose 4-slice is `""`) raises
`DecodeError` — Python slicing cannot raise out-of-range. -/
theorem c6_format_response (response : Response) :
    format_response response = json_loads (pySlice response.text 4) ∧
    (response.text.length < 4 → format_response response = .error .decodeError) := by
  refine ⟨rfl, fun h => ?_⟩
  have hdrop : response.text.data.drop 4 = [] :=
    List.drop_eq_nil_of_le (Nat.le_of_lt h)
  show json_loads (String.mk (response.text.data.drop 4)) = .error .decodeError
  rw [hdrop]
  rfl

/-- C6 witness: decoding the status-200 body `"ab"` (shorter than the
4-character preamble) raises `DecodeError`. -/
theorem c6_format_response_witness :
    format_response ⟨200, "ab"⟩ = .error .decodeError :=
  (c6_format_response ⟨200, "ab"⟩).2 (by decide)

/-! ## Claim C7: status gating -/

/-- A transport that answers 304 (non-2xx, but neither 4xx nor 5xx). -/
def c7net : Net := fun _ _ => ⟨304, "abcd7"⟩

/-- C7 counterexample: a 304 response is not a 2xx status, yet
`raise_for_status` does not raise (it raises only for 4xx/5xx), so
`redfin_request` returns the response as success — and a full pipeline
(`search`) even parses and returns the body. -/
theorem c7_counterexample :
    redfin_request c7net "u" [] = .ok ⟨304, "abcd7"⟩ ∧
    (304 < 200 ∨ 299 < 304) ∧
    search c7net "q" [] = .ok (.json (.num 7)) :=
  ⟨rfl, by decide, rfl⟩

/-- C7 (amended): `redfin_request` raises `RequestError` exactly for the
4xx/5xx status range, before any parsing — otherwise (all 1xx/2xx/3xx
statuses) the raw, unparsed response is returned as success. -/
theorem c7_amended (net : Net) (url : String) (params : List (String × PyVal)) :
    (redfin_request net url params = .error .requestError ↔
      400 ≤ (net (redfinBase ++ url) params).status ∧
        (net (redfinBase ++ url) params).status ≤ 599) ∧
    (¬(400 ≤ (net (redfinBase ++ url) params).status ∧
        (net (redfinBase ++ url) params).status ≤ 599) →
      redfin_request net url params = .ok (net (redfinBase ++ url) params)) := by
  by_cases h : 400 ≤ (net (redfinBase ++ url) params).status ∧
      (net (redfinBase ++ url) params).status ≤ 599 <;>
    simp [redfin_request, h]

/-- C7 witness: at status 304 the hypothesis of the success branch holds
and the raw response is returned. -/
theorem c7_amended_witness :
    redfin_request c7net "u" [] = .ok (c7net (redfinBase ++ "u") []) :=
  (c7_amended c7net "u" []).2 (by decide)

/-! ## Claim C8: region-data path construction -/

/-- C8: with `propertyType = ""` the path is
`api/region/{T}/{R}/{suffix}`; with any `propertyType` that is not `==`
the empty string the path gains the extra segment; both concrete
instances of the spec evaluate as stated. -/
theorem c8_region_path (region_type region_id : PyVal) (url : String)
    (property_type : PyVal) :
    region_request_url url region_type region_id (PyVal.str "") =
      "api/region/" ++ pyStr region_type ++ "/" ++ pyStr region_id ++ "/" ++ url ∧
    (pyEqStr property_type "" = false →
      region_request_url url region_type region_id property_type =
        "api/region/" ++ pyStr region_type ++ "/" ++ pyStr region_id ++ "/"
          ++ pyStr property_type ++ "/" ++ url) ∧
    region_request_url "trends" (PyVal.int 2) (PyVal.int 8729) (PyVal.str "") =
      "api/region/2/8729/trends" ∧
    region_request_url "trends" (PyVal.int 2) (PyVal.int 8729) (PyVal.int 1) =
      "api/region/2/8729/1/trends" := by
  refine ⟨by simp [region_request_url, pyEqStr], fun h => ?_, by decide, by decide⟩
  simp [region_request_url, h]

/-- C8 witness: `propertyType = 1` is not `== ""`, and the path gains
the property-type segment. -/
theorem c8_region_path_witness :
    region_request_url "trends" (PyVal.int 2) (PyVal.int 8729) (PyVal.int 1) =
      "api/region/" ++ pyStr (PyVal.int 2) ++ "/" ++ pyStr (PyVal.int 8729) ++ "/"
        ++ pyStr (PyVal.int 1) ++ "/" ++ "trends" :=
  (c8_region_path (PyVal.int 2) (PyVal.int 8729) "trends" (PyVal.int 1)).2.1 rfl

/-! ## Claim C2: what each domain method returns -/

/-- The complete observable behaviour of a decoded JSON endpoint, in
terms of the response `r` the transport produced: `RequestError` for
4xx/5xx, otherwise the body text minus its 4-character preamble, parsed
as JSON. -/
def JsonEndpoint (result : Except PyErr MethodResult) (r : Response) : Prop :=
  result =
    if 400 ≤ r.status ∧ r.status ≤ 599 then .error .requestError
    else (json_loads (pySlice r.text 4)).map .json

/-- An endpoint that hands back the raw, undecoded response object. -/
def RawEndpoint (result : Except PyErr MethodResult) (r : Response) : Prop :=
  result =
    if 400 ≤ r.status ∧ r.status ≤ 599 then .error .requestError
    else .ok (.raw r)

/-- An endpoint that hands back the raw body bytes. -/
def BytesEndpoint (result : Except PyErr MethodResult) (r : Response) : Prop :=
  result =
    if 400 ≤ r.status ∧ r.status ≤ 599 then .error .requestError
    else .ok (.bytes r.text)

theorem redfin_request_split (net : Net) (url : String) (params : List (String × PyVal)) :
    redfin_request net url params =
      if 400 ≤ (net (redfinBase ++ url) params).status ∧
          (net (redfinBase ++ url) params).status ≤ 599
      then .error .requestError
      else .ok (net (redfinBase ++ url) params) := rfl

theorem pipeline_decode (net : Net) (url : String) (params : List (String × PyVal)) :
    (redfin_request net url params).bind format_response =
      if 400 ≤ (net (redfinBase ++ url) params).status ∧
          (net (redfinBase ++ url) params).status ≤ 599
      then .error .requestError
      else json_loads (pySlice (net (redfinBase ++ url) params).text 4) := by
  rw [redfin_request_split]
  split <;> rfl

theorem pipeline_json (net : Net) (url : String) (params : List (String × PyVal)) :
    JsonEndpoint (((redfin_request net url params).bind format_response).map .json)
      (net (redfinBase ++ url) params) := by
  unfold JsonEndpoint
  rw [pipeline_decode]
  split <;> rfl

theorem pipeline_raw (net : Net) (url : String) (params : List (String × PyVal)) :
    RawEndpoint ((redfin_request net url params).map .raw)
      (net (redfinBase ++ url) params) := by
  unfold RawEndpoint
  rw [redfin_request_split]
  split <;> rfl

theorem pipeline_bytes (net : Net) (url : String) (params : List (String × PyVal)) :
    BytesEndpoint ((redfin_request net url params).map (fun r => .bytes r.text))
      (net (redfinBase ++ url) params) := by
  unfold BytesEndpoint
  rw [redfin_request_split]
  split <;> rfl

/-- A concrete transport for the C2 scenario: status 200, body
`"abcd7"`, whose decoded payload is the JSON number `7`. -/
def c2net : Net := fun _ _ => ⟨200, "abcd7"⟩

/-- C2 counterexample: `primary_region`, `shared_region` and
`get_recently_sold` return the raw undecoded response object, not the
decoded payload of the body (which here is the JSON number `7`). -/
theorem c2_counterexample :
    primary_region c2net "p" = .ok (.raw ⟨200, "abcd7"⟩) ∧
    shared_region c2net (PyVal.int 8729) [] = .ok (.raw ⟨200, "abcd7"⟩) ∧
    get_recently_sold c2net (PyVal.int 2) (PyVal.int 8729) = .ok (.raw ⟨200, "abcd7"⟩) ∧
    format_response ⟨200, "abcd7"⟩ = .ok (.num 7) ∧
    (Except.ok (MethodResult.raw ⟨200, "abcd7"⟩) : Except PyErr MethodResult) ≠
      .ok (.json (.num 7)) :=
  ⟨rfl, rfl, rfl, rfl, by simp⟩

theorem pipeline_images (net : Net) (url : String) (params : List (String × PyVal)) :
    (((redfin_request net url params).bind format_response).bind
        extract_image_list).map MethodResult.jsonList =
      (if 400 ≤ (net (redfinBase ++ url) params).status ∧
          (net (redfinBase ++ url) params).status ≤ 599
      then .error .requestError
      else ((json_loads (pySlice (net (redfinBase ++ url) params).text 4)).bind
          extract_image_list).map MethodResult.jsonList) := by
  rw [pipeline_decode]
  split <;> rfl

theorem pipeline_ts (net : Net) (url : String) (params : List (String × PyVal))
    (today : Int) :
    (do
      let response ← (redfin_request net url params).bind format_response
      let payload ← jGet response "payload"
      let tsJson ← jGet payload "propertyTimeSeries"
      let estimate_list ← jElems tsJson
      let ts ← buildTs (month_list today) estimate_list
      Except.ok (MethodResult.tsDict ts)) =
      (if 400 ≤ (net (redfinBase ++ url) params).status ∧
          (net (redfinBase ++ url) params).status ≤ 599
      then .error .requestError
      else do
        let response ← json_loads (pySlice (net (redfinBase ++ url) params).text 4)
        let payload ← jGet response "payload"
        let tsJson ← jGet payload "propertyTimeSeries"
        let estimate_list ← jElems tsJson
        let ts ← buildTs (month_list today) estimate_list
        Except.ok (MethodResult.tsDict ts)) := by
  rw [pipeline_decode]
  split <;> rfl

/-- C2 (amended): every domain method except the CSV export
(`get_search_results_table`) and except `primary_region`,
`shared_region` and `get_recently_sold` returns a value computed from
the decoded JSON payload (`parseJSON(body[4:])`) — the plain wrappers
return exactly the decoded payload; `get_property_images` and
`get_property_timeseries_estimate` return pure reshapings of it.
`primary_region`, `shared_region` and `get_recently_sold` instead
return the raw undecoded response object, and the CSV export returns
the raw body bytes. -/
theorem c2_amended (net : Net) (today : Int) (q u : String)
    (kw : List (String × PyVal)) (pid lid rt rid pt tid : PyVal)
    (al num_homes page_number sold_within_days status v : Int)
    (has_deal has_dishwasher has_laundry_facility has_laundry_hookups has_parking
      has_pool has_short_term_lease include_pending_homes is_rentals is_furnished
      travel_with_traffic travel_within_region utilities_included : Bool)
    (market ord uipt : String) :
    JsonEndpoint (search net q kw)
      (net (redfinBase ++ "do/location-autocomplete")
        (pyDictLit [("location", PyVal.str q), ("v", PyVal.int 2)] kw)) ∧
    JsonEndpoint (get_property_information net pid lid)
      (net (redfinBase ++ ("api/home/details/" ++ "belowTheFold"))
        (pyDictLit [("accessLevel", PyVal.int 1)]
          [("propertyId", pid), ("listingId", lid)])) ∧
    JsonEndpoint (get_similar_homes net pid lid)
      (net (redfinBase ++ ("api/home/details/" ++ "avm"))
        (pyDictLit [("accessLevel", PyVal.int 1)]
          [("propertyId", pid), ("listingId", lid)])) ∧
    JsonEndpoint (get_offer_insights net rt rid pt)
      (net (redfinBase ++ region_request_url "offer-insights" rt rid pt) []) ∧
    JsonEndpoint (get_best_schools net rt rid pt)
      (net (redfinBase ++ region_request_url "best-schools" rt rid pt) []) ∧
    JsonEndpoint (get_walk_score_data net rt rid pt)
      (net (redfinBase ++ region_request_url "walk-score-data" rt rid pt) []) ∧
    JsonEndpoint (get_region_trends net rt rid pt)
      (net (redfinBase ++ region_request_url "trends" rt rid pt) []) ∧
    JsonEndpoint (get_flood_risk_data net rt rid)
      (net (redfinBase ++ region_request_url "floodRisk-data" rt rid (PyVal.str "")) []) ∧
    JsonEndpoint (get_market_insights_interlinks net rt rid)
      (net (redfinBase ++
        region_request_url "market-insights-interlinks" rt rid (PyVal.str "")) []) ∧
    JsonEndpoint (get_env_risk_data net rt rid)
      (net (redfinBase ++ region_request_url "envRisk-data" rt rid (PyVal.str "")) []) ∧
    JsonEndpoint (get_home_feature_trends net rt rid)
      (net (redfinBase ++
        region_request_url "home-feature-trends/entrypoint" rt rid (PyVal.str "")) []) ∧
    JsonEndpoint (get_compete_score net rt rid)
      (net (redfinBase ++ region_request_url "compete-score" rt rid (PyVal.str "")) []) ∧
    JsonEndpoint (get_nearby_compete_scores net rt rid)
      (net (redfinBase ++
        region_request_url "nearby-compete-scores" rt rid (PyVal.str "")) []) ∧
    get_property_images net pid lid =
      (if 400 ≤ (net (redfinBase ++ ("api/home/details/" ++ "aboveTheFold"))
            (pyDictLit [("accessLevel", PyVal.int 1)]
              [("propertyId", pid), ("listingId", lid)])).status ∧
          (net (redfinBase ++ ("api/home/details/" ++ "aboveTheFold"))
            (pyDictLit [("accessLevel", PyVal.int 1)]
              [("propertyId", pid), ("listingId", lid)])).status ≤ 599
      then .error .requestError
      else ((json_loads (pySlice (net (redfinBase ++ ("api/home/details/" ++ "aboveTheFold"))
            (pyDictLit [("accessLevel", PyVal.int 1)]
              [("propertyId", pid), ("listingId", lid)])).text 4)).bind
          extract_image_list).map MethodResult.jsonList) ∧
    get_property_timeseries_estimate net today pid lid =
      (if 400 ≤ (net (redfinBase ++ ("api/home/details/" ++ "avmHistoricalData"))
            (pyDictLit [("accessLevel", PyVal.int 1)]
              [("propertyId", pid), ("listingId", lid)])).status ∧
          (net (redfinBase ++ ("api/home/details/" ++ "avmHistoricalData"))
            (pyDictLit [("accessLevel", PyVal.int 1)]
              [("propertyId", pid), ("listingId", lid)])).status ≤ 599
      then .error .requestError
      else do
        let response ← json_loads (pySlice
          (net (redfinBase ++ ("api/home/details/" ++ "avmHistoricalData"))
            (pyDictLit [("accessLevel", PyVal.int 1)]
              [("propertyId", pid), ("listingId", lid)])).text 4)
        let payload ← jGet response "payload"
        let tsJson ← jGet payload "propertyTimeSeries"
        let estimate_list ← jElems tsJson
        let ts ← buildTs (month_list today) estimate_list
        Except.ok (MethodResult.tsDict ts)) ∧
    RawEndpoint (primary_region net u)
      (net (redfinBase ++ "api/home/details/primaryRegionInfo")
        [("path", PyVal.str u)]) ∧
    RawEndpoint (shared_region net tid kw)
      (net (redfinBase ++ "api/region/shared-region-info")
        (pyDictLit [("tableId", tid), ("regionTypeId", PyVal.int 2),
          ("mapPageTypeId", PyVal.int 1)] kw)) ∧
    RawEndpoint (get_recently_sold net rt rid)
      (net (redfinBase ++ "api/gis/recently-sold")
        [("region_type", rt), ("region_id", rid)]) ∧
    BytesEndpoint (get_search_results_table net rid rt al has_deal has_dishwasher
        has_laundry_facility has_laundry_hookups has_parking has_pool
        has_short_term_lease include_pending_homes is_rentals is_furnished market
        num_homes ord page_number sold_within_days status travel_with_traffic
        travel_within_region uipt utilities_included v)
      (net (redfinBase ++ "api/gis-csv")
        (gis_csv_params rid rt al has_deal has_dishwasher has_laundry_facility
          has_laundry_hookups has_parking has_pool has_short_term_lease
          include_pending_homes is_rentals is_furnished market num_homes ord
          page_number sold_within_days status travel_with_traffic
          travel_within_region uipt utilities_included v)) :=
  ⟨pipeline_json net "do/location-autocomplete"
      (pyDictLit [("location", PyVal.str q), ("v", PyVal.int 2)] kw),
   pipeline_json net ("api/home/details/" ++ "belowTheFold")
      (pyDictLit [("accessLevel", PyVal.int 1)] [("propertyId", pid), ("listingId", lid)]),
   pipeline_json net ("api/home/details/" ++ "avm")
      (pyDictLit [("accessLevel", PyVal.int 1)] [("propertyId", pid), ("listingId", lid)]),
   pipeline_json net (region_request_url "offer-insights" rt rid pt) [],
   pipeline_json net (region_request_url "best-schools" rt rid pt) [],
   pipeline_json net (region_request_url "walk-score-data" rt rid pt) [],
   pipeline_json net (region_request_url "trends" rt rid pt) [],
   pipeline_json net (region_request_url "floodRisk-data" rt rid (PyVal.str "")) [],
   pipeline_json net (region_request_url "market-insights-interlinks" rt rid (PyVal.str "")) [],
   pipeline_json net (region_request_url "envRisk-data" rt rid (PyVal.str "")) [],
   pipeline_json net (region_request_url "home-feature-trends/entrypoint" rt rid (PyVal.str "")) [],
   pipeline_json net (region_request_url "compete-score" rt rid (PyVal.str "")) [],
   pipeline_json net (region_request_url "nearby-compete-scores" rt rid (PyVal.str "")) [],
   pipeline_images net ("api/home/details/" ++ "aboveTheFold")
      (pyDictLit [("accessLevel", PyVal.int 1)] [("propertyId", pid), ("listingId", lid)]),
   pipeline_ts net ("api/home/details/" ++ "avmHistoricalData")
      (pyDictLit [("accessLevel", PyVal.int 1)] [("propertyId", pid), ("listingId", lid)]) today,
   pipeline_raw net "api/home/details/primaryRegionInfo" [("path", PyVal.str u)],
   pipeline_raw net "api/region/shared-region-info"
      (pyDictLit [("tableId", tid), ("regionTypeId", PyVal.int 2),
        ("mapPageTypeId", PyVal.int 1)] kw),
   pipeline_raw net "api/gis/recently-sold" [("region_type", rt), ("region_id", rid)],
   pipeline_bytes net "api/gis-csv"
      (gis_csv_params rid rt al has_deal has_dishwasher has_laundry_facility
        has_laundry_hookups has_parking has_pool has_short_term_lease
        include_pending_homes is_rentals is_furnished market num_homes ord
        page_number sold_within_days status travel_with_traffic
        travel_within_region uipt utilities_included v)⟩

/-! ## Claim C4: region-id extraction -/

theorem splitChar_no_sep (sep : Char) (b : List Char) (h : sep ∉ b) :
    splitChar sep b = [b] := by
  induction b with
  | nil => rfl
  | cons c cs ih =>
    simp only [List.mem_cons, not_or] at h
    have hcs : ¬c = sep := fun hh => h.1 hh.symm
    rw [splitChar, ih h.2]
    simp [hcs]

theorem splitChar_append (sep : Char) (a rest : List Char) (h : sep ∉ a) :
    splitChar sep (a ++ sep :: rest) = a :: splitChar sep rest := by
  induction a with
  | nil => simp [splitChar]
  | cons c cs ih =>
    simp only [List.mem_cons, not_or] at h
    have hcs : ¬c = sep := fun hh => h.1 hh.symm
    rw [List.cons_append, splitChar, ih h.2]
    simp [hcs]

/-- The search-payload shape `get_region_id` reads, with the row id `s`:
`{"payload": {"sections": [{"rows": [{"id": s}]}]}}`. -/
def regionPayload (s : String) : Json :=
  .obj [("payload", .obj [("sections", .arr [.obj [("rows",
    .arr [.obj [("id", .str s)]])]])])]

theorem get_region_id_regionPayload (s : String) :
    get_region_id (regionPayload s) =
      match (pyRsplitUnderscore s).get? 1 with
      | some region_id => Except.ok region_id
      | none => Except.error PyErr.indexError := rfl

/-- C4 counterexample: for an id with two underscores, `rsplit("_")[1]`
takes the second underscore-separated field — `"34"` — not the suffix
after the first underscore, `"34_56"`. -/
theorem c4_counterexample :
    get_region_id (regionPayload "12_34_56") = .ok "34" ∧ ("34" : String) ≠ "34_56" :=
  ⟨rfl, by decide⟩

/-- C4 (amended): `get_region_id` returns the **second
underscore-separated field** of `sections[0].rows[0].id` (for an id with
exactly one underscore this is the whole suffix, so `"123_456"` gives
`"456"`; with further underscores the field stops at the next one); for
a payload with zero sections it raises the `IndexError` of `[0]`. -/
theorem c4_amended (a b c : List Char) (ha : '_' ∉ a) (hb : '_' ∉ b) :
    get_region_id (regionPayload (String.mk (a ++ '_' :: b))) = .ok (String.mk b) ∧
    get_region_id (regionPayload (String.mk (a ++ '_' :: (b ++ '_' :: c)))) =
      .ok (String.mk b) ∧
    get_region_id (.obj [("payload", .obj [("sections", .arr [])])]) =
      .error .indexError ∧
    get_region_id (regionPayload "123_456") = .ok "456" := by
  refine ⟨?_, ?_, rfl, rfl⟩
  · have h1 : pyRsplitUnderscore (String.mk (a ++ '_' :: b)) =
        [String.mk a, String.mk b] := by
      show ((splitChar '_' (a ++ '_' :: b)).map String.mk) = _
      rw [splitChar_append '_' a b ha, splitChar_no_sep '_' b hb]
      rfl
    rw [get_region_id_regionPayload, h1]
    rfl
  · have h1 : pyRsplitUnderscore (String.mk (a ++ '_' :: (b ++ '_' :: c))) =
        String.mk a :: String.mk b :: (splitChar '_' c).map String.mk := by
      show ((splitChar '_' (a ++ '_' :: (b ++ '_' :: c))).map String.mk) = _
      rw [splitChar_append '_' a (b ++ '_' :: c) ha, splitChar_append '_' b c hb]
      rfl
    rw [get_region_id_regionPayload, h1]
    rfl

/-- C4 witness: the two generic branches at the concrete id
`"12_34_5"`. -/
theorem c4_amended_witness :
    get_region_id (regionPayload (String.mk (['1', '2'] ++ '_' :: ['3', '4']))) =
      .ok (String.mk ['3', '4']) ∧
    get_region_id (regionPayload
        (String.mk (['1', '2'] ++ '_' :: (['3', '4'] ++ '_' :: ['5'])))) =
      .ok (String.mk ['3', '4']) :=
  ⟨(c4_amended ['1', '2'] ['3', '4'] ['5'] (by decide) (by decide)).1,
   (c4_amended ['1', '2'] ['3', '4'] ['5'] (by decide) (by decide)).2.1⟩

/-! ## Claims C3 and C10: month labels and the positional zip -/

theorem digitCh_inj (a b : Nat) (ha : a < 10) (hb : b < 10)
    (h : digitCh a = digitCh b) : a = b := by
  have hfin : ∀ x y : Fin 10, digitCh x.val = digitCh y.val → x = y := by decide
  exact congrArg Fin.val (hfin ⟨a, ha⟩ ⟨b, hb⟩ h)

theorem twoDigit_inj (m n : Nat) (hm : m < 100) (hn : n < 100)
    (h : twoDigit m = twoDigit n) : m = n := by
  simp only [twoDigit, List.cons.injEq, and_true] at h
  have h1 := digitCh_inj (m / 10) (n / 10) (by omega) (by omega) h.1
  have h2 := digitCh_inj (m % 10) (n % 10) (by omega) (by omega) h.2
  omega

theorem monthAbbrevChars_inj (a b : Nat) (ha : a < 12) (hb : b < 12)
    (h : monthAbbrevChars a = monthAbbrevChars b) : a = b := by
  have hfin : ∀ x y : Fin 12, monthAbbrevChars x.val = monthAbbrevChars y.val → x = y := by
    decide
  exact congrArg Fin.val (hfin ⟨a, ha⟩ ⟨b, hb⟩ h)

theorem monthAbbrevChars_length (k : Nat) (h : k < 12) :
    (monthAbbrevChars k).length = 3 := by
  interval_cases k <;> rfl

theorem fmtMonth_inj (x y : Int) (h1 : x - y < 1200) (h2 : y - x < 1200)
    (h : fmtMonth x = fmtMonth y) : x = y := by
  have hdata : fmtMonthData x = fmtMonthData y := congrArg String.data h
  have hx12 : (x % 12).toNat < 12 := by
    have := Int.emod_nonneg x (show (12 : Int) ≠ 0 by norm_num)
    have := Int.emod_lt_of_pos x (show (0 : Int) < 12 by norm_num)
    omega
  have hy12 : (y % 12).toNat < 12 := by
    have := Int.emod_nonneg y (show (12 : Int) ≠ 0 by norm_num)
    have := Int.emod_lt_of_pos y (show (0 : Int) < 12 by norm_num)
    omega
  have hx100 : (x / 12 % 100).toNat < 100 := by
    have := Int.emod_nonneg (x / 12) (show (100 : Int) ≠ 0 by norm_num)
    have := Int.emod_lt_of_pos (x / 12) (show (0 : Int) < 100 by norm_num)
    omega
  have hy100 : (y / 12 % 100).toNat < 100 := by
    have := Int.emod_nonneg (y / 12) (show (100 : Int) ≠ 0 by norm_num)
    have := Int.emod_lt_of_pos (y / 12) (show (0 : Int) < 100 by norm_num)
    omega
  have hlen : (monthAbbrevChars (x % 12).toNat).length =
      (monthAbbrevChars (y % 12).toNat).length := by
    rw [monthAbbrevChars_length _ hx12, monthAbbrevChars_length _ hy12]
  have hsplit := List.append_inj hdata hlen
  have habbrev := monthAbbrevChars_inj _ _ hx12 hy12 hsplit.1
  have hdig : twoDigit (x / 12 % 100).toNat = twoDigit (y / 12 % 100).toNat := by
    have := hsplit.2
    simp only [List.cons.injEq] at this
    exact this.2
  have hyear := twoDigit_inj _ _ hx100 hy100 hdig
  have hm12 : x % 12 = y % 12 := by omega
  have hm100 : x / 12 % 100 = y / 12 % 100 := by omega
  omega

theorem month_range_eq :
    month_range = (List.range 61).map (fun k : Nat => -1 + (k : Int)) := rfl

theorem mem_month_range (i : Int) (h : i ∈ month_range) : -1 ≤ i ∧ i ≤ 59 := by
  rw [month_range_eq] at h
  obtain ⟨k, hk, rfl⟩ := List.mem_map.mp h
  have := List.mem_range.mp hk
  omega

theorem month_range_nodup : month_range.Nodup := by
  rw [month_range_eq]
  exact (List.nodup_range 61).map_on (fun a _ b _ hab => by omega)

theorem month_list_nodup (today : Int) : (month_list today).Nodup := by
  rw [month_list, List.nodup_reverse]
  refine month_range_nodup.map_on ?_
  intro i hi j hj hij
  have hbi := mem_month_range i hi
  have hbj := mem_month_range j hj
  have := fmtMonth_inj (today - (i - 1)) (today - (j - 1)) (by omega) (by omega) hij
  omega

theorem month_list_length (today : Int) : (month_list today).length = 61 := by
  have h : month_range.length = 61 := rfl
  simp [month_list, h]

theorem rev_map_range (F : Nat → String) :
    ∀ n : Nat, ((List.range n).map F).reverse =
      (List.range n).map (fun j => F (n - 1 - j)) := by
  intro n
  induction n with
  | zero => rfl
  | succ n ih =>
    calc ((List.range (n + 1)).map F).reverse
        = ((List.range n ++ [n]).map F).reverse := by rw [List.range_succ]
      _ = F n :: ((List.range n).map F).reverse := by simp
      _ = F n :: (List.range n).map (fun j => F (n - 1 - j)) := by rw [ih]
      _ = (0 :: (List.range n).map Nat.succ).map (fun j => F (n + 1 - 1 - j)) := by
          simp only [List.map_cons, List.map_map]
          refine congrArg₂ List.cons (by congr 1) ?_
          refine List.map_congr_left ?_
          intro a _
          simp only [Function.comp]
          congr 1
          omega
      _ = (List.range (n + 1)).map (fun j => F (n + 1 - 1 - j)) := by
          rw [← List.range_succ_eq_map]

theorem month_list_eq (today : Int) :
    month_list today =
      (List.range 61).map (fun j : Nat => fmtMonth (today - 58 + (j : Int))) := by
  rw [month_list, month_range_eq, List.map_map, rev_map_range]
  refine List.map_congr_left ?_
  intro j hj
  have hj61 := List.mem_range.mp hj
  simp only [Function.comp]
  congr 1
  omega

theorem pyDictInsert_append {α : Type} (d : List (String × α)) (k : String) (v : α)
    (h : k ∉ d.map Prod.fst) : pyDictInsert d k v = d ++ [(k, v)] := by
  induction d with
  | nil => rfl
  | cons p rest ih =>
    simp only [List.map_cons, List.mem_cons, not_or] at h
    have hne : ¬p.1 = k := fun hh => h.1 hh.symm
    rw [pyDictInsert, if_neg hne, ih h.2, List.cons_append]

theorem buildTsAux_append (L : List String) (E : List Json) (xs ys : List Nat) :
    ∀ d, buildTsAux L E (xs ++ ys) d =
      (buildTsAux L E xs d).bind (fun d' => buildTsAux L E ys d') := by
  induction xs with
  | nil => intro d; rfl
  | cons i is ih =>
    intro d
    rw [List.cons_append]
    cases hL : L.get? i with
    | none => simp only [buildTsAux, hL]; rfl
    | some k =>
      cases hE : E.get? i with
      | none => simp only [buildTsAux, hL, hE]; rfl
      | some v => simp only [buildTsAux, hL, hE, ih]

theorem buildTsAux_range_ok (L : List String) (E : List Json) :
    ∀ n : Nat, n ≤ L.length → n ≤ E.length → (L.take n).Nodup →
      buildTsAux L E (List.range n) [] = .ok ((L.take n).zip (E.take n)) := by
  intro n
  induction n with
  | zero => intro _ _ _; rfl
  | succ n ih =>
    intro h1 h2 h3
    have hn1 : n ≤ L.length := by omega
    have hn2 : n ≤ E.length := by omega
    have hLn : n < L.length := by omega
    have hEn : n < E.length := by omega
    have htt : L.take n = (L.take (n + 1)).take n := by
      rw [List.take_take]
      congr 1
      omega
    have hnd : (L.take n).Nodup := by
      rw [htt]
      exact h3.sublist (List.take_sublist n (L.take (n + 1)))
    have hgL : L.get? n = some (L.get ⟨n, hLn⟩) := List.get?_eq_get hLn
    have hgE : E.get? n = some (E.get ⟨n, hEn⟩) := List.get?_eq_get hEn
    have htsL : L.take (n + 1) = L.take n ++ [L.get ⟨n, hLn⟩] := by
      rw [List.take_succ, ← List.get?_eq_getElem?, hgL]
      rfl
    have htsE : E.take (n + 1) = E.take n ++ [E.get ⟨n, hEn⟩] := by
      rw [List.take_succ, ← List.get?_eq_getElem?, hgE]
      rfl
    have hfresh : L.get ⟨n, hLn⟩ ∉ ((L.take n).zip (E.take n)).map Prod.fst := by
      rw [List.map_fst_zip]
      · intro hmem
        rw [htsL, List.nodup_append] at h3
        exact h3.2.2 hmem (List.mem_singleton.mpr rfl)
      · rw [List.length_take, List.length_take]
        omega
    rw [List.range_succ, buildTsAux_append, ih hn1 hn2 hnd]
    show buildTsAux L E [n] ((L.take n).zip (E.take n)) = _
    simp only [buildTsAux, hgL, hgE]
    rw [pyDictInsert_append _ _ _ hfresh, htsL, htsE,
      List.zip_append (by rw [List.length_take, List.length_take]; omega)]
    rfl

theorem buildTs_ok (L : List String) (E : List Json) (h1 : E.length ≤ L.length)
    (h2 : (L.take E.length).Nodup) : buildTs L E = .ok ((L.take E.length).zip E) := by
  have h := buildTsAux_range_ok L E E.length h1 le_rfl h2
  rw [List.take_length] at h
  exact h

theorem buildTsAux_ok_exists (L : List String) (E : List Json) :
    ∀ (idxs : List Nat) (d : List (String × Json)),
      (∀ i ∈ idxs, i < L.length ∧ i < E.length) →
      ∃ d', buildTsAux L E idxs d = .ok d' := by
  intro idxs
  induction idxs with
  | nil => intro d _; exact ⟨d, rfl⟩
  | cons i is ih =>
    intro d h
    have hi := h i (List.mem_cons_self i is)
    have hgL : L.get? i = some (L.get ⟨i, hi.1⟩) := List.get?_eq_get hi.1
    have hgE : E.get? i = some (E.get ⟨i, hi.2⟩) := List.get?_eq_get hi.2
    simp only [buildTsAux, hgL, hgE]
    exact ih _ (fun j hj => h j (List.mem_cons_of_mem i hj))

theorem buildTs_err (L : List String) (E : List Json) (h : L.length < E.length) :
    buildTs L E = .error .indexError := by
  have hsplit : E.length = L.length + ((E.length - L.length - 1) + 1) := by omega
  rw [buildTs, hsplit, List.range_add, buildTsAux_append]
  obtain ⟨d', hd'⟩ := buildTsAux_ok_exists L E (List.range L.length) []
    (fun i hi => ⟨List.mem_range.mp hi, by have := List.mem_range.mp hi; omega⟩)
  rw [hd']
  show buildTsAux L E ((List.range (E.length - L.length - 1 + 1)).map
    (fun x => L.length + x)) d' = .error .indexError
  rw [List.range_succ_eq_map]
  have hgnone : L.get? (L.length + 0) = none := by
    rw [List.get?_eq_none]
    omega
  simp only [List.map_cons, buildTsAux, hgnone]

/-- C3: the month-label generation produces exactly 61 labels — oldest
first, the label of absolute month `today - 58 + j` at position `j`
(the walk `range(-1, 60)` with offset `i - 1`, reversed) — and for every
estimate list of length `n ≤ 61` the positional dict comprehension
yields exactly `n` entries keyed by the first `n` labels in order:
`zip(labels[:n], estimates)`.  The labels depend only on `today`, never
on the estimate list. -/
theorem c3_month_zip (today : Int) (ests : List Json) (h : ests.length ≤ 61) :
    (month_list today).length = 61 ∧
    month_list today =
      (List.range 61).map (fun j : Nat => fmtMonth (today - 58 + (j : Int))) ∧
    buildTs (month_list today) ests =
      .ok (((month_list today).take ests.length).zip ests) ∧
    (((month_list today).take ests.length).zip ests).length = ests.length := by
  have hlen := month_list_length today
  have hnodup := month_list_nodup today
  have h1 : ests.length ≤ (month_list today).length := by omega
  have htake : ((month_list today).take ests.length).Nodup :=
    hnodup.sublist (List.take_sublist ests.length (month_list today))
  refine ⟨hlen, month_list_eq today, buildTs_ok _ _ h1 htake, ?_⟩
  rw [List.length_zip, List.length_take]
  omega

/-- C3 witness: at `today = 0` with a two-element estimate list, the 61
labels and the two-entry zip. -/
theorem c3_month_zip_witness :
    (month_list 0).length = 61 ∧
    month_list 0 =
      (List.range 61).map (fun j : Nat => fmtMonth (0 - 58 + (j : Int))) ∧
    buildTs (month_list 0) [Json.num 5, Json.null] =
      .ok (((month_list 0).take 2).zip [Json.num 5, Json.null]) ∧
    (((month_list 0).take 2).zip [Json.num 5, Json.null]).length = 2 :=
  c3_month_zip 0 [Json.num 5, Json.null] (by decide)

/-- C10: for every estimate list longer than the 61 generated labels,
the comprehension indexes `month_list` out of range and the method
fails with `IndexError` instead of returning a partial mapping. -/
theorem c10_overflow (today : Int) (ests : List Json) (h : 61 < ests.length) :
    buildTs (month_list today) ests = .error .indexError := by
  apply buildTs_err
  rw [month_list_length]
  exact h

/-- C10 witness: a 62-element estimate list fails with `IndexError`. -/
theorem c10_overflow_witness :
    buildTs (month_list 0) (List.replicate 62 Json.null) = .error .indexError :=
  c10_overflow 0 (List.replicate 62 Json.null) (by simp)
